import Mathlib

/-!
Verification of the streaming-video repository (broadcaster, consumer,
OpenCV bridge, discovery registry) against its natural-language
specification.  The definitions below are shallow embeddings of the
Python sources:

  * `probe_callback_core`  — the FPS probe callback shared (up to the
    label text) by `src/task2/broadcaster/video_broadcast.py` and
    `src/task2/consumer/video_consumer.py`;
  * `register_broadcast`, `list_broadcasts_route`, `delete_broadcast`
    — the Flask handlers of `src/task2/discovery/app.py`;
  * `on_pad_added_for_file`, `on_pad_added` — the deferred pad-link
    callbacks of the broadcaster and of
    `src/task1/video_consumer_with_opencv.py`;
  * `on_new_sample` — the appsink → OpenCV → appsrc frame bridge of
    `src/task1/video_consumer_with_opencv.py`;
  * `fps_probe_callback` — the task1 FPS probe whose state dictionary
    is modelled key-by-key, since its behaviour hinges on the exact
    dictionary keys used.

Machine integers are modelled as `Nat` (GStreamer timestamps are
unsigned 64-bit values, `Gst.CLOCK_TIME_NONE = 2^64 - 1`); Python
floats are modelled as exact rationals; Python exceptions
(`ZeroDivisionError`, `KeyError`, `AttributeError`) are modelled with
`Except`.
-/

deriving instance DecidableEq for Except

/-- Gst.CLOCK_TIME_NONE, the sentinel for "no timestamp": the maximal
unsigned 64-bit value. -/
def GST_CLOCK_TIME_NONE : Nat := 2 ^ 64 - 1

/-- Python exceptions that can escape the embedded code. -/
inductive PyErr where
  | zeroDivisionError : PyErr
  | keyError (key : String) : PyErr
  | attributeError (attr : String) : PyErr
  deriving DecidableEq, Repr

/-- The probe-state dictionary of the task2 probe callbacks:
`{'previous_pts': ..., 'current_fps': ...}`. -/
structure ProbeState where
  previous_pts : Nat
  current_fps : ℚ
  deriving DecidableEq, Repr

/-- The fresh probe state built in `do_create_element` / `main`:
`{'previous_pts': Gst.CLOCK_TIME_NONE, 'current_fps': 0.0}`. -/
def freshProbeState : ProbeState :=
  { previous_pts := GST_CLOCK_TIME_NONE, current_fps := 0 }

/-- The text pushed to the overlay, `f"<tag>{fps:.1f}"`: we record the
label tag and the exact rate embedded in the f-string. -/
structure FpsLabel where
  tag : String
  rate : ℚ
  deriving DecidableEq, Repr

/-- Shallow embedding of `probe_callback` from
`src/task2/broadcaster/video_broadcast.py` (lines 26–53); the consumer
variant in `src/task2/consumer/video_consumer.py` is identical except
for the label tag, so the tag is a parameter.  The buffer is `none`
for `info.get_buffer() is None`, otherwise `some` of `buffer.pts`.
Python's `1_000_000_000 / delta_ns` raises `ZeroDivisionError` when
the delta is zero; the `textoverlay.set_property` call is wrapped in
`try/except` in the source and cannot alter the state or the label,
so it is not modelled further. -/
def probe_callback_core (tag : String) (st : ProbeState) (buffer : Option Nat) :
    Except PyErr (ProbeState × Option FpsLabel) :=
  match buffer with
  | none => .ok (st, none)
  | some current_pts_ns =>
    if st.previous_pts ≠ GST_CLOCK_TIME_NONE then
      let delta_ns : Int := (current_pts_ns : Int) - (st.previous_pts : Int)
      if delta_ns = 0 then
        .error .zeroDivisionError
      else
        let fps : ℚ := 1000000000 / (delta_ns : ℚ)
        .ok ({ previous_pts := current_pts_ns, current_fps := fps },
             some { tag := tag, rate := fps })
    else
      .ok ({ previous_pts := current_pts_ns, current_fps := 0 },
           some { tag := tag, rate := 0 })

/-- The broadcaster's probe callback (label `"Broadcast FPS: "`). -/
def broadcast_probe_callback (st : ProbeState) (buffer : Option Nat) :
    Except PyErr (ProbeState × Option FpsLabel) :=
  probe_callback_core "Broadcast FPS: " st buffer

/-- The consumer's probe callback (label `"Consumer FPS: "`). -/
def consumer_probe_callback (st : ProbeState) (buffer : Option Nat) :
    Except PyErr (ProbeState × Option FpsLabel) :=
  probe_callback_core "Consumer FPS: " st buffer

/-- Run the probe callback over a sequence of buffer events, collecting
the overlay labels it produces (empty buffers produce none). -/
def runProbe (tag : String) (st : ProbeState) :
    List (Option Nat) → Except PyErr (ProbeState × List FpsLabel)
  | [] => .ok (st, [])
  | ev :: evs =>
    match probe_callback_core tag st ev with
    | .error e => .error e
    | .ok (st1, lbl) =>
      match runProbe tag st1 evs with
      | .error e => .error e
      | .ok (stF, lbls) =>
        match lbl with
        | none => .ok (stF, lbls)
        | some l => .ok (stF, l :: lbls)

/-- The rate the estimator computes for a frame at timestamp `b`
following a frame at timestamp `a`: `1e9 / (b - a)`. -/
def rateOf (a b : Nat) : ℚ := 1000000000 / ((b : ℚ) - (a : ℚ))

/-- Lookup in an association list, modelling Python dictionary read. -/
def alookup {κ α : Type} [DecidableEq κ] : List (κ × α) → κ → Option α
  | [], _ => none
  | (k1, v) :: rest, k => if k1 = k then some v else alookup rest k

/-- Insert/replace in an association list, modelling Python dictionary
assignment `d[k] = v`: an existing key keeps its position, a new key is
appended (Python dictionaries preserve insertion order). -/
def aset {κ α : Type} [DecidableEq κ] : List (κ × α) → κ → α → List (κ × α)
  | [], k, v => [(k, v)]
  | (k1, v1) :: rest, k, v =>
    if k1 = k then (k, v) :: rest else (k1, v1) :: aset rest k v

/-- Deletion from an association list, modelling Python `del d[k]`. -/
def adel {κ α : Type} [DecidableEq κ] : List (κ × α) → κ → List (κ × α)
  | [], _ => []
  | (k1, v1) :: rest, k => if k1 = k then adel rest k else (k1, v1) :: adel rest k

/-- The record stored by the discovery registry for one broadcaster
(`src/task2/discovery/app.py`, lines 20–25).  The `broadcaster_id`
field is exactly `data['broadcaster_id']`, which may be JSON null. -/
structure BroadcastRecord where
  broadcaster_id : Option String
  stream_url : String
  status : String
  created_at : Nat
  deriving DecidableEq, Repr

/-- The module-level `broadcasts` dictionary, keyed by broadcaster id. -/
abbrev Registry := List (String × BroadcastRecord)

/-- A JSON request body for `POST /broadcasts`: each present key maps to
a string or to JSON null (`none`); an absent key is absent from the
list, so that reading it raises `KeyError` as `data[key]` does. -/
abbrev ReqBody := List (String × Option String)

/-- Python `data[k]` on a parsed JSON body: `KeyError` when the key is
absent, otherwise the (possibly null) value. -/
def reqGet (data : ReqBody) (k : String) : Except PyErr (Option String) :=
  match alookup data k with
  | none => .error (.keyError k)
  | some v => .ok v

/-- The JSON payload a discovery handler returns. -/
inductive RespBody where
  | record (r : BroadcastRecord)
  | records (rs : List BroadcastRecord)
  | errorBody (msg : String)
  | emptyObj
  deriving DecidableEq, Repr

/-- Shallow embedding of `register_broadcast` from
`src/task2/discovery/app.py` (lines 10–26).  `gen_id` stands for the
fresh `uuid.uuid4().hex[:8]` suffix and `now` for
`datetime.datetime.now(...)`, both supplied by the environment.  The
handler reads `data['stream_url']` first (raising `KeyError` when the
key is absent), answers 400 only on an explicit null, then reads
`data['broadcaster_id']` the same way; the stored record's
`broadcaster_id` field is the raw `data['broadcaster_id']` value, not
the generated key. -/
def register_broadcast (gen_id : String) (now : Nat) (reg : Registry) (data : ReqBody) :
    Except PyErr (Registry × Nat × RespBody) :=
  match reqGet data "stream_url" with
  | .error e => .error e
  | .ok none => .ok (reg, 400, .errorBody "Missing stream_url")
  | .ok (some url) =>
    match reqGet data "broadcaster_id" with
    | .error e => .error e
    | .ok bid =>
      let broadcaster_id : String :=
        match bid with
        | none => "broadcaster-" ++ gen_id
        | some b => b
      let record : BroadcastRecord :=
        { broadcaster_id := bid, stream_url := url, status := "active", created_at := now }
      .ok (aset reg broadcaster_id record, 201, .record record)

/-- Shallow embedding of `list_broadcasts` from
`src/task2/discovery/app.py` (lines 28–30): 200 with all stored record
values. -/
def list_broadcasts_route (reg : Registry) : Nat × RespBody :=
  (200, .records (reg.map Prod.snd))

/-- Shallow embedding of `delete_broadcast` from
`src/task2/discovery/app.py` (lines 32–37): 404 with an error body when
the id is not a key of the mapping, otherwise `del` plus
`jsonify({}), 204`. -/
def delete_broadcast (reg : Registry) (broadcaster_id : String) :
    Registry × Nat × RespBody :=
  if alookup reg broadcaster_id = none then
    (reg, 404, .errorBody "Broadcaster not found")
  else
    (adel reg broadcaster_id, 204, .emptyObj)

/-- Body actually emitted on the wire for a given status, modelling the
WSGI layer under Flask (Werkzeug's `Response.get_app_iter`): responses
with status 1xx, 204 or 304 are sent without a message body. -/
def wsgi_response_body (status : Nat) (body : RespBody) : Option RespBody :=
  if status = 204 ∨ status = 304 ∨ (100 ≤ status ∧ status < 200) then none
  else some body

/-- Python `s.startswith(pat)`, modelled as a character-level
comparison (`String.startsWith` agrees with it on all inputs). -/
def pyStartsWith (s pat : String) : Bool := pat.data.isPrefixOf s.data

/-- A dynamically discovered demuxer/decoder output port: whether it is
already linked, and the negotiated caps string (`none` when the engine
reports no caps). -/
structure Pad where
  is_linked : Bool
  caps : Option String
  deriving DecidableEq, Repr

/-- Observable outcome of one invocation of a pad-added callback. -/
inductive LinkOutcome where
  | linkedOk
  | linkFailed
  | alreadyLinked
  | ignoredNonVideo
  deriving DecidableEq, Repr

/-- Shallow embedding of `on_pad_added_for_file` from
`src/task2/broadcaster/video_broadcast.py` (lines 183–196): return
early when the pad is already linked; link only when
`caps.to_string().startswith("video/x-raw")` (a falsy caps object falls
into the ignore branch); a rejected link is logged, not raised.
`linkOk` is the engine's verdict on `pad.link(target_pad)` for a pad
that is not yet linked. -/
def on_pad_added_for_file (linkOk : Bool) (pad : Pad) : Pad × LinkOutcome :=
  if pad.is_linked then (pad, .alreadyLinked)
  else
    match pad.caps with
    | some c =>
      if pyStartsWith c "video/x-raw" then
        if linkOk then ({ pad with is_linked := true }, .linkedOk)
        else (pad, .linkFailed)
      else (pad, .ignoredNonVideo)
    | none => (pad, .ignoredNonVideo)

/-- Shallow embedding of `on_pad_added` from
`src/task1/video_consumer_with_opencv.py` (lines 144–159): as above but
reading `pad.get_current_caps().get_structure(0).get_name()`, which
raises `AttributeError` when the caps are `None`. -/
def on_pad_added (linkOk : Bool) (pad : Pad) : Except PyErr (Pad × LinkOutcome) :=
  if pad.is_linked then .ok (pad, .alreadyLinked)
  else
    match pad.caps with
    | none => .error (.attributeError "get_structure")
    | some name =>
      if pyStartsWith name "video/x-raw" then
        if linkOk then .ok ({ pad with is_linked := true }, .linkedOk)
        else .ok (pad, .linkFailed)
      else .ok (pad, .ignoredNonVideo)

/-- Timing metadata of a GStreamer buffer: presentation timestamp,
decode timestamp, duration and byte offset, all unsigned 64-bit. -/
structure GstBufferMeta where
  pts : Nat
  dts : Nat
  duration : Nat
  byteOffset : Nat
  deriving DecidableEq, Repr

/-- A sample pulled from the appsink: the buffer's timing metadata, the
address of its pixel data in the store, and the negotiated caps
(`none` when `sample.get_caps()` is `None`). -/
structure Sample where
  meta : GstBufferMeta
  dataAddr : Nat
  caps : Option String
  deriving DecidableEq, Repr

/-- Module-level bridge state of `src/task1/video_consumer_with_opencv.py`:
whether the global `appsrc` is set, the `last_caps` cache, and the caps
currently configured on the appsrc. -/
structure BridgeState where
  appsrc_present : Bool
  last_caps : Option String
  appsrc_caps : Option String
  deriving DecidableEq, Repr

/-- Buffer memory, addressed by id: models the mapped GStreamer buffer
data and the NumPy arrays of the bridge; `next` is the next fresh
address. -/
structure Store where
  bufs : List (Nat × List Nat)
  next : Nat
  deriving DecidableEq, Repr

/-- Gst.FlowReturn values the callback produces. -/
inductive FlowReturn where
  | ok
  | flowError
  deriving DecidableEq, Repr

/-- The new frame the bridge pushes into the appsrc. -/
structure PushedBuffer where
  pts : Nat
  dts : Nat
  duration : Nat
  byteOffset : Nat
  data : List Nat
  deriving DecidableEq, Repr

/-- Shallow embedding of `on_new_sample` from
`src/task1/video_consumer_with_opencv.py` (lines 54–112).  The pulled
sample is `none` when `pull-sample` yields nothing; `mapOk` is the
result of `buffer.map(Gst.MapFlags.READ)`; `transform` is
`process_frame_opencv`, modelled as the final contents of the array it
is given (it may mutate its argument in place and returns it).  The
code wraps the mapped source bytes as `frame`, allocates `frame.copy()`
at a fresh address, lets the transform mutate that copy, then builds
the pushed buffer from the processed bytes, copying `pts`, `dts`,
`duration` and `offset` from the pulled buffer.  The source buffer's
bytes are never written. -/
def on_new_sample (transform : List Nat → List Nat) (mapOk : Bool)
    (sample : Option Sample) (st : BridgeState) (store : Store) :
    BridgeState × Store × FlowReturn × Option PushedBuffer :=
  match sample with
  | none => (st, store, .flowError, none)
  | some s =>
    match s.caps with
    | none => (st, store, .ok, none)
    | some caps =>
      let st1 :=
        if st.last_caps = none ∨ st.last_caps ≠ some caps then
          { st with
            last_caps := some caps,
            appsrc_caps := if st.appsrc_present then some caps else st.appsrc_caps }
        else st
      if mapOk = false then (st1, store, .flowError, none)
      else
        let frame := (alookup store.bufs s.dataAddr).getD []
        let copyAddr := store.next
        let store1 : Store :=
          { bufs := aset store.bufs copyAddr frame, next := store.next + 1 }
        let store2 : Store :=
          { store1 with bufs := aset store1.bufs copyAddr (transform frame) }
        let processed := (alookup store2.bufs copyAddr).getD []
        if st1.appsrc_present then
          (st1, store2, .ok,
           some { pts := s.meta.pts, dts := s.meta.dts,
                  duration := s.meta.duration, byteOffset := s.meta.byteOffset,
                  data := processed })
        else (st1, store2, .ok, none)

/-- A Python value stored in the task1 `fps_probe_state` dictionary:
an integer timestamp or a float rate. -/
inductive PyVal where
  | int (n : Nat)
  | flt (q : ℚ)
  deriving DecidableEq, Repr

/-- Numeric coercion of a `PyVal`, as Python arithmetic would apply. -/
def pyNum : PyVal → ℚ
  | .int n => (n : ℚ)
  | .flt q => q

/-- A Python dictionary with string keys and numeric values. -/
abbrev PyDict := List (String × PyVal)

/-- Python `d[k]` on such a dictionary. -/
def pyDictGet (d : PyDict) (k : String) : Except PyErr PyVal :=
  match alookup d k with
  | none => .error (.keyError k)
  | some v => .ok v

/-- The module-level initial state of
`src/task1/video_consumer_with_opencv.py` (line 30):
`{'prev_pts': Gst.CLOCK_TIME_NONE, 'current_fps': 0.0}`. -/
def fps_probe_state_init : PyDict :=
  [("prev_pts", .int GST_CLOCK_TIME_NONE), ("current_fps", .flt 0)]

/-- Shallow embedding of `fps_probe_callback` from
`src/task1/video_consumer_with_opencv.py` (lines 115–142).  The state
dictionary is modelled key-by-key because the code's behaviour turns on
the exact keys: the guard reads `fps_probe_state['previous_pts']` while
the dictionary only ever has the key `'prev_pts'`, so the read raises
`KeyError`.  The `textoverlay.set_property` call is inside
`try/except` and cannot raise out of the callback. -/
def fps_probe_callback (st : PyDict) (buffer : Option Nat) (overlayPresent : Bool) :
    Except PyErr (PyDict × Option FpsLabel) :=
  match buffer with
  | none => .ok (st, none)
  | some current_pts =>
    if overlayPresent = false then .ok (st, none)
    else
      match pyDictGet st "previous_pts" with
      | .error e => .error e
      | .ok prev =>
        if prev ≠ PyVal.int GST_CLOCK_TIME_NONE then
          match pyDictGet st "prev_pts" with
          | .error e => .error e
          | .ok prevv =>
            let delta : ℚ := (current_pts : ℚ) - pyNum prevv
            if delta = 0 then .error .zeroDivisionError
            else
              let fps : ℚ := 1000000000 / delta
              let st1 := aset st "current_fps" (.flt fps)
              let st2 := aset st1 "prev_pts" (.int current_pts)
              .ok (st2, some ⟨"FPS: ", fps⟩)
        else
          let st1 := aset st "current_fps" (.flt 0)
          let st2 := aset st1 "prev_pts" (.int current_pts)
          .ok (st2, some ⟨"FPS: ", 0⟩)

theorem probe_step_fresh (tag : String) (f : ℚ) (t : Nat) :
    probe_callback_core tag ⟨GST_CLOCK_TIME_NONE, f⟩ (some t) =
      .ok (⟨t, 0⟩, some ⟨tag, 0⟩) := by
  simp [probe_callback_core]

theorem probe_step_ne (tag : String) (p t : Nat) (f : ℚ)
    (hp : p ≠ GST_CLOCK_TIME_NONE) (hne : t ≠ p) :
    probe_callback_core tag ⟨p, f⟩ (some t) =
      .ok (⟨t, rateOf p t⟩, some ⟨tag, rateOf p t⟩) := by
  have hd : ((t : Int) - (p : Int)) ≠ 0 := by
    rw [sub_ne_zero]
    exact_mod_cast hne
  have hcast : (((t : Int) - (p : Int) : Int) : ℚ) = (t : ℚ) - (p : ℚ) := by
    push_cast
    ring
  simp only [probe_callback_core, ne_eq]
  rw [if_pos hp, if_neg hd, hcast]
  rfl

theorem probe_step_zero (tag : String) (p : Nat) (f : ℚ)
    (hp : p ≠ GST_CLOCK_TIME_NONE) :
    probe_callback_core tag ⟨p, f⟩ (some p) = .error .zeroDivisionError := by
  simp only [probe_callback_core, ne_eq]
  rw [if_pos hp, if_pos (by ring)]

theorem getLastD_cons_eq {α : Type} (a d : α) (l : List α) :
    (a :: l).getLastD d = l.getLastD a := by
  cases l <;> simp [List.getLastD]

theorem runProbe_chain (tag : String) (ts : List Nat) :
    ∀ (p : Nat) (f : ℚ),
      (ts ≠ [] → p ≠ GST_CLOCK_TIME_NONE) →
      List.Chain (· < ·) p ts → (∀ t ∈ ts, t < 2 ^ 64) →
      ∃ stF : ProbeState,
        runProbe tag ⟨p, f⟩ (ts.map some) =
          .ok (stF, (List.zipWith rateOf (p :: ts) ts).map (fun q => ⟨tag, q⟩)) ∧
        stF.current_fps = (List.zipWith rateOf (p :: ts) ts).getLastD f ∧
        stF.previous_pts = (p :: ts).getLast (List.cons_ne_nil p ts) := by
  induction ts with
  | nil =>
    intro p f _ _ _
    exact ⟨⟨p, f⟩, rfl, rfl, by simp⟩
  | cons t ts' ih =>
    intro p f hpn hchain hbound
    have hp : p ≠ GST_CLOCK_TIME_NONE := hpn (by simp)
    have hpt : p < t := (List.chain_cons.mp hchain).1
    have hch' : List.Chain (· < ·) t ts' := (List.chain_cons.mp hchain).2
    have hb' : ∀ x ∈ ts', x < 2 ^ 64 := fun x hx => hbound x (List.mem_cons_of_mem _ hx)
    have h64 : (2 : ℕ) ^ 64 = 18446744073709551616 := by norm_num
    have hpn' : ts' ≠ [] → t ≠ GST_CLOCK_TIME_NONE := by
      intro hne
      cases ts' with
      | nil => exact absurd rfl hne
      | cons u rest =>
        have htu : t < u := (List.chain_cons.mp hch').1
        have hu : u < 2 ^ 64 := hb' u (by simp)
        simp only [GST_CLOCK_TIME_NONE]
        omega
    obtain ⟨stF, hrun, hfps, hprev⟩ := ih t (rateOf p t) hpn' hch' hb'
    refine ⟨stF, ?_, ?_, ?_⟩
    · simp only [List.map_cons, runProbe,
        probe_step_ne tag p t f hp (Nat.ne_of_gt hpt), hrun,
        List.zipWith_cons_cons, List.map_cons]
    · rw [hfps, List.zipWith_cons_cons, getLastD_cons_eq]
    · rw [hprev]
      exact (List.getLast_cons (List.cons_ne_nil t ts')).symm

theorem chain_head_ne_none (t : Nat) (rest : List Nat)
    (hch : List.Chain (· < ·) t rest) (hb : ∀ x ∈ rest, x < 2 ^ 64)
    (hne : rest ≠ []) : t ≠ GST_CLOCK_TIME_NONE := by
  cases rest with
  | nil => exact absurd rfl hne
  | cons u rest =>
    have htu : t < u := (List.chain_cons.mp hch).1
    have hu : u < 2 ^ 64 := hb u (by simp)
    have h64 : (2 : ℕ) ^ 64 = 18446744073709551616 := by norm_num
    simp only [GST_CLOCK_TIME_NONE]
    omega

theorem getLastD_mem {α : Type} (l : List α) (d : α) (h : l ≠ []) :
    l.getLastD d ∈ l := by
  induction l generalizing d with
  | nil => exact absurd rfl h
  | cons a l ih =>
    rw [getLastD_cons_eq]
    cases l with
    | nil => simp [List.getLastD]
    | cons b l => exact List.mem_cons_of_mem a (ih a (by simp))

theorem zipWith_rates_pos (rest : List Nat) :
    ∀ t : Nat, List.Chain (· < ·) t rest →
      ∀ q ∈ List.zipWith rateOf (t :: rest) rest, 0 < q := by
  induction rest with
  | nil =>
    intro t _ q hq
    simp at hq
  | cons u rest ih =>
    intro t hch q hq
    rw [List.zipWith_cons_cons] at hq
    rcases List.mem_cons.mp hq with h | h
    · subst h
      unfold rateOf
      apply div_pos (by norm_num)
      rw [sub_pos]
      exact_mod_cast (List.chain_cons.mp hch).1
    · exact ih u (List.chain_cons.mp hch).2 q h

theorem runProbe_none_cons (tag : String) (st : ProbeState) (evs : List (Option Nat)) :
    runProbe tag st (none :: evs) = runProbe tag st evs := by
  cases h : runProbe tag st evs <;> simp [runProbe, probe_callback_core, h]

theorem runProbe_eq_filterMap (tag : String) (evs : List (Option Nat)) :
    ∀ st : ProbeState,
      runProbe tag st evs = runProbe tag st ((evs.filterMap id).map some) := by
  induction evs with
  | nil => intro st; rfl
  | cons ev evs ih =>
    intro st
    cases ev with
    | none =>
      rw [runProbe_none_cons]
      simpa using ih st
    | some t =>
      cases hpc : probe_callback_core tag st (some t) with
      | error e => simp [runProbe, List.filterMap_cons, hpc]
      | ok r =>
        obtain ⟨st1, lbl⟩ := r
        simp [runProbe, List.filterMap_cons, hpc, ih st1]

/-- Claim C1: feeding strictly increasing nanosecond timestamps to the probe
callback from a fresh `FrameTimingState` produces, with no exception, a
first label of rate 0.0 (and stores `t1` in the state), and for each
`i > 1` a label whose rate is exactly `1e9 / (ti - t(i-1))`. -/
theorem fps_estimator_exact_rates (tag : String) (ts : List Nat)
    (hne : ts ≠ []) (hchain : List.Chain' (· < ·) ts)
    (hbound : ∀ t ∈ ts, t < 2 ^ 64) :
    ∃ (stF : ProbeState) (labels : List FpsLabel),
      runProbe tag freshProbeState (ts.map some) = .ok (stF, labels) ∧
      labels.map FpsLabel.rate = 0 :: List.zipWith rateOf ts ts.tail ∧
      probe_callback_core tag freshProbeState (some ts.headI) =
        .ok (⟨ts.headI, 0⟩, some ⟨tag, 0⟩) := by
  cases ts with
  | nil => exact absurd rfl hne
  | cons t rest =>
    have hch : List.Chain (· < ·) t rest := hchain
    have hb' : ∀ x ∈ rest, x < 2 ^ 64 := fun x hx => hbound x (by simp [hx])
    obtain ⟨stF, hrun, _, _⟩ :=
      runProbe_chain tag rest t 0 (chain_head_ne_none t rest hch hb') hch hb'
    refine ⟨stF,
      ⟨tag, 0⟩ :: (List.zipWith rateOf (t :: rest) rest).map (fun q => ⟨tag, q⟩),
      ?_, ?_, ?_⟩
    · simp only [List.map_cons, runProbe, freshProbeState, probe_step_fresh, hrun]
    · simp [List.map_map, Function.comp_def, List.map_id']
    · exact probe_step_fresh tag 0 t

theorem fps_estimator_exact_rates_witness :
    ([0, 50000000, 150000000] : List Nat) ≠ [] ∧
    List.Chain' (· < ·) ([0, 50000000, 150000000] : List Nat) ∧
    (∀ t ∈ ([0, 50000000, 150000000] : List Nat), t < 2 ^ 64) ∧
    (∃ (stF : ProbeState) (labels : List FpsLabel),
      runProbe "Broadcast FPS: " freshProbeState
          (([0, 50000000, 150000000] : List Nat).map some) = .ok (stF, labels) ∧
      labels.map FpsLabel.rate =
        0 :: List.zipWith rateOf ([0, 50000000, 150000000] : List Nat)
          ([0, 50000000, 150000000] : List Nat).tail ∧
      probe_callback_core "Broadcast FPS: " freshProbeState
          (some ([0, 50000000, 150000000] : List Nat).headI) =
        .ok (⟨([0, 50000000, 150000000] : List Nat).headI, 0⟩,
             some ⟨"Broadcast FPS: ", 0⟩)) :=
  ⟨by decide,
    show List.Chain' (· < ·) [0, 50000000, 150000000] from
      List.Chain.cons (by decide) (List.Chain.cons (by decide) List.Chain.nil),
    by decide,
    fps_estimator_exact_rates "Broadcast FPS: " [0, 50000000, 150000000]
      (by decide)
      (show List.Chain' (· < ·) [0, 50000000, 150000000] from
        List.Chain.cons (by decide) (List.Chain.cons (by decide) List.Chain.nil))
      (by decide)⟩

/-- Claim C2, counterexample: a duplicate timestamp (zero delta) makes the probe
callback raise `ZeroDivisionError` — Python's `1_000_000_000 / delta_ns`
crashes on a zero integer delta, so the claim that a non-positive delta
never causes a crash is false. -/
theorem probe_zero_delta_crashes :
    runProbe "Broadcast FPS: " freshProbeState [some 100, some 100] =
      .error .zeroDivisionError := by
  simp only [runProbe, probe_callback_core, freshProbeState, GST_CLOCK_TIME_NONE]
  norm_num

/-- Claim C2 as amended: on a strictly negative delta the probe callback does not
crash and computes the finite (negative) rate `1e9 / (t - p)`; on a zero
delta it raises `ZeroDivisionError`. -/
theorem probe_nonpositive_delta (tag : String) (p t : Nat) (f : ℚ)
    (hp : p ≠ GST_CLOCK_TIME_NONE) (hle : t ≤ p) :
    (t < p →
      probe_callback_core tag ⟨p, f⟩ (some t) =
        .ok (⟨t, rateOf p t⟩, some ⟨tag, rateOf p t⟩) ∧ rateOf p t < 0) ∧
    (t = p → probe_callback_core tag ⟨p, f⟩ (some t) = .error .zeroDivisionError) := by
  constructor
  · intro hlt
    refine ⟨probe_step_ne tag p t f hp (Nat.ne_of_lt hlt), ?_⟩
    unfold rateOf
    apply div_neg_of_pos_of_neg (by norm_num)
    rw [sub_neg]
    exact_mod_cast hlt
  · intro he
    subst he
    exact probe_step_zero tag t f hp

theorem probe_nonpositive_delta_witness :
    (100 : Nat) ≠ GST_CLOCK_TIME_NONE ∧ (50 : Nat) ≤ 100 ∧
    (((50 : Nat) < 100 →
      probe_callback_core "FPS: " ⟨100, 0⟩ (some 50) =
        .ok (⟨50, rateOf 100 50⟩, some ⟨"FPS: ", rateOf 100 50⟩) ∧
      rateOf 100 50 < 0) ∧
     ((50 : Nat) = 100 →
      probe_callback_core "FPS: " ⟨100, 0⟩ (some 50) = .error .zeroDivisionError)) :=
  ⟨by decide, by decide,
    probe_nonpositive_delta "FPS: " 100 50 0 (by decide) (by decide)⟩

/-- Claim C9, counterexample: with an out-of-order timestamp sequence (100 then
50) the reachable `FrameTimingState` stores the negative rate
`-2e7`, so `current_rate` is not always non-negative. -/
theorem probe_negative_rate_reachable :
    runProbe "Broadcast FPS: " freshProbeState [some 100, some 50] =
      .ok ({ previous_pts := 50, current_fps := -20000000 },
           [⟨"Broadcast FPS: ", 0⟩, ⟨"Broadcast FPS: ", -20000000⟩]) ∧
    (-20000000 : ℚ) < 0 := by
  constructor
  · simp only [runProbe, probe_callback_core, freshProbeState, GST_CLOCK_TIME_NONE]
    norm_num
  · norm_num

/-- Claim C9 as amended: over any sequence of tap-callback invocations whose
non-empty buffers carry strictly increasing timestamps (the engine's
monotone-clock contract), the state reachable from a fresh
`FrameTimingState` has a non-negative `current_rate`, and the rate stays
0.0 until two timestamp samples have been observed. -/
theorem probe_state_invariant (tag : String) (evs : List (Option Nat))
    (hchain : List.Chain' (· < ·) (evs.filterMap id))
    (hbound : ∀ t ∈ evs.filterMap id, t < 2 ^ 64) :
    ∃ (stF : ProbeState) (labels : List FpsLabel),
      runProbe tag freshProbeState evs = .ok (stF, labels) ∧
      0 ≤ stF.current_fps ∧
      ((evs.filterMap id).length ≤ 1 → stF.current_fps = 0) := by
  rw [runProbe_eq_filterMap]
  cases hE : evs.filterMap id with
  | nil =>
    exact ⟨freshProbeState, [], rfl, le_refl 0, fun _ => rfl⟩
  | cons t rest =>
    rw [hE] at hchain hbound
    have hch : List.Chain (· < ·) t rest := hchain
    have hb' : ∀ x ∈ rest, x < 2 ^ 64 := fun x hx => hbound x (by simp [hx])
    obtain ⟨stF, hrun, hfps, _⟩ :=
      runProbe_chain tag rest t 0 (chain_head_ne_none t rest hch hb') hch hb'
    refine ⟨stF,
      ⟨tag, 0⟩ :: (List.zipWith rateOf (t :: rest) rest).map (fun q => ⟨tag, q⟩),
      ?_, ?_, ?_⟩
    · simp only [List.map_cons, runProbe, freshProbeState, probe_step_fresh, hrun]
    · rw [hfps]
      cases hz : List.zipWith rateOf (t :: rest) rest with
      | nil => simp [List.getLastD]
      | cons q0 qs =>
        have hmem := getLastD_mem (q0 :: qs) 0 (by simp)
        have hpos := zipWith_rates_pos rest t hch
        rw [hz] at hpos
        exact le_of_lt (hpos _ hmem)
    · intro hlen
      cases rest with
      | nil =>
        rw [hfps]
        simp [List.getLastD]
      | cons u rest' => simp at hlen

theorem alookup_adel_self {κ α : Type} [DecidableEq κ] (l : List (κ × α)) (k : κ) :
    alookup (adel l k) k = none := by
  induction l with
  | nil => rfl
  | cons p rest ih =>
    obtain ⟨k1, v1⟩ := p
    by_cases h : k1 = k
    · simp [adel, h, ih]
    · simp [adel, alookup, h, ih]

theorem alookup_adel_ne {κ α : Type} [DecidableEq κ] (l : List (κ × α)) (k k2 : κ)
    (h : k2 ≠ k) : alookup (adel l k) k2 = alookup l k2 := by
  induction l with
  | nil => rfl
  | cons p rest ih =>
    obtain ⟨k1, v1⟩ := p
    by_cases h1 : k1 = k
    · subst h1
      have : ¬ (k1 = k2) := fun he => h (he.symm)
      simp [adel, alookup, this, ih]
    · by_cases h2 : k1 = k2 <;> simp [adel, alookup, h1, h2, h, ih]

theorem alookup_aset_ne {κ α : Type} [DecidableEq κ] (l : List (κ × α)) (k k2 : κ)
    (v : α) (h : k2 ≠ k) : alookup (aset l k v) k2 = alookup l k2 := by
  induction l with
  | nil =>
    have : ¬ (k = k2) := fun he => h (he.symm)
    simp [aset, alookup, this]
  | cons p rest ih =>
    obtain ⟨k1, v1⟩ := p
    by_cases h1 : k1 = k
    · subst h1
      have : ¬ (k1 = k2) := fun he => h (he.symm)
      simp [aset, alookup, this]
    · by_cases h2 : k1 = k2 <;> simp [aset, alookup, h1, h2, h, ih]

/-- Claim C3: evaluating `register_broadcast` on a request whose
`broadcaster_id` is JSON null shows the stored and returned record
carries `broadcaster_id = null` rather than the freshly generated id
(the generated id is only used as the mapping key); with the key
entirely absent the handler raises `KeyError` instead of registering. -/
theorem register_generated_id_mismatch :
    register_broadcast "abc12345" 17 []
        [("broadcaster_id", none), ("stream_url", some "rtsp://h:5051/cam1")] =
      .ok ([("broadcaster-abc12345",
             ⟨none, "rtsp://h:5051/cam1", "active", 17⟩)], 201,
           .record ⟨none, "rtsp://h:5051/cam1", "active", 17⟩) ∧
    (none : Option String) ≠ some "broadcaster-abc12345" ∧
    register_broadcast "abc12345" 17 [] [("stream_url", some "rtsp://h:5051/cam1")] =
      .error (.keyError "broadcaster_id") := by
  refine ⟨by decide, by decide, by decide⟩

/-- Claim C4: a register request with no `stream_url` key raises `KeyError`
(surfacing as an HTTP 500), not the claimed structured 400
ValidationError; only an explicit JSON-null `stream_url` yields the 400
body, the registry being left unchanged in both cases. -/
theorem register_missing_stream_url_eval :
    register_broadcast "abc12345" 17 [] [("broadcaster_id", some "cam1")] =
      .error (.keyError "stream_url") ∧
    register_broadcast "abc12345" 17 []
        [("broadcaster_id", some "cam1"), ("stream_url", none)] =
      .ok ([], 400, .errorBody "Missing stream_url") := by
  refine ⟨by decide, by decide⟩

/-- Claim C5: deregistering an absent id answers 404 with an error body and
leaves the registry untouched; deregistering a present id answers 204
with no body on the wire and removes exactly that record, every other
key mapping unchanged. -/
theorem delete_broadcast_spec (reg : Registry) (bid : String) :
    (alookup reg bid = none →
      delete_broadcast reg bid = (reg, 404, .errorBody "Broadcaster not found")) ∧
    (alookup reg bid ≠ none →
      (delete_broadcast reg bid).2.1 = 204 ∧
      wsgi_response_body (delete_broadcast reg bid).2.1
        (delete_broadcast reg bid).2.2 = none ∧
      alookup (delete_broadcast reg bid).1 bid = none ∧
      (∀ k2, k2 ≠ bid → alookup (delete_broadcast reg bid).1 k2 = alookup reg k2)) := by
  constructor
  · intro h
    simp [delete_broadcast, h]
  · intro h
    have hd : delete_broadcast reg bid = (adel reg bid, 204, .emptyObj) := by
      simp [delete_broadcast, h]
    rw [hd]
    exact ⟨rfl, rfl, alookup_adel_self reg bid,
           fun k2 hk2 => alookup_adel_ne reg bid k2 hk2⟩

theorem delete_broadcast_spec_witness :
    delete_broadcast
        [("cam1", ⟨some "cam1", "rtsp://h:5051/cam1", "active", 42⟩)] "nope" =
      ([("cam1", ⟨some "cam1", "rtsp://h:5051/cam1", "active", 42⟩)], 404,
       .errorBody "Broadcaster not found") ∧
    (delete_broadcast
        [("cam1", ⟨some "cam1", "rtsp://h:5051/cam1", "active", 42⟩)] "cam1").2.1 = 204 ∧
    wsgi_response_body
      (delete_broadcast
        [("cam1", ⟨some "cam1", "rtsp://h:5051/cam1", "active", 42⟩)] "cam1").2.1
      (delete_broadcast
        [("cam1", ⟨some "cam1", "rtsp://h:5051/cam1", "active", 42⟩)] "cam1").2.2 = none ∧
    alookup (delete_broadcast
        [("cam1", ⟨some "cam1", "rtsp://h:5051/cam1", "active", 42⟩)] "cam1").1 "cam1" =
      none ∧
    alookup (delete_broadcast
        [("cam1", ⟨some "cam1", "rtsp://h:5051/cam1", "active", 42⟩)] "cam1").1 "other" =
      alookup [("cam1", ⟨some "cam1", "rtsp://h:5051/cam1", "active", 42⟩)] "other" :=
  ⟨(delete_broadcast_spec _ "nope").1 (by decide),
   ((delete_broadcast_spec _ "cam1").2 (by decide)).1,
   ((delete_broadcast_spec _ "cam1").2 (by decide)).2.1,
   ((delete_broadcast_spec _ "cam1").2 (by decide)).2.2.1,
   ((delete_broadcast_spec _ "cam1").2 (by decide)).2.2.2 "other" (by decide)⟩

/-- Claim C6: the deferred pad-link callbacks are type-filtered and
idempotent: a non-raw-video pad is left unlinked with no error, an
unlinked raw-video pad gets linked to the downstream sink pad, an
already-linked pad is a no-op, and two invocations on the same
raw-video pad produce exactly one successful link with no error on the
second call — in both the broadcaster's and the task1 consumer's
callback. -/
theorem pad_added_idempotent (pad : Pad) (c : String) (hcaps : pad.caps = some c) :
    (pyStartsWith c "video/x-raw" = false → pad.is_linked = false →
      on_pad_added_for_file true pad = (pad, .ignoredNonVideo) ∧
      on_pad_added true pad = .ok (pad, .ignoredNonVideo)) ∧
    (pyStartsWith c "video/x-raw" = true → pad.is_linked = false →
      on_pad_added_for_file true pad = ({ pad with is_linked := true }, .linkedOk) ∧
      on_pad_added true pad = .ok ({ pad with is_linked := true }, .linkedOk)) ∧
    (pad.is_linked = true →
      on_pad_added_for_file true pad = (pad, .alreadyLinked) ∧
      on_pad_added true pad = .ok (pad, .alreadyLinked)) ∧
    (pyStartsWith c "video/x-raw" = true → pad.is_linked = false →
      on_pad_added_for_file true (on_pad_added_for_file true pad).1 =
        ({ pad with is_linked := true }, .alreadyLinked)) := by
  refine ⟨?_, ?_, ?_, ?_⟩
  · intro hsw hlk
    constructor <;> simp [on_pad_added_for_file, on_pad_added, hcaps, hsw, hlk]
  · intro hsw hlk
    constructor <;> simp [on_pad_added_for_file, on_pad_added, hcaps, hsw, hlk]
  · intro hlk
    constructor <;> simp [on_pad_added_for_file, on_pad_added, hlk]
  · intro hsw hlk
    simp [on_pad_added_for_file, hcaps, hsw, hlk]

theorem pad_added_idempotent_witness :
    (on_pad_added_for_file true ⟨false, some "audio/x-raw, rate=44100"⟩ =
       (⟨false, some "audio/x-raw, rate=44100"⟩, .ignoredNonVideo) ∧
     on_pad_added true ⟨false, some "audio/x-raw, rate=44100"⟩ =
       .ok (⟨false, some "audio/x-raw, rate=44100"⟩, .ignoredNonVideo)) ∧
    (on_pad_added_for_file true ⟨false, some "video/x-raw, format=RGB"⟩ =
       (⟨true, some "video/x-raw, format=RGB"⟩, .linkedOk) ∧
     on_pad_added true ⟨false, some "video/x-raw, format=RGB"⟩ =
       .ok (⟨true, some "video/x-raw, format=RGB"⟩, .linkedOk)) ∧
    (on_pad_added_for_file true ⟨true, some "video/x-raw, format=RGB"⟩ =
       (⟨true, some "video/x-raw, format=RGB"⟩, .alreadyLinked) ∧
     on_pad_added true ⟨true, some "video/x-raw, format=RGB"⟩ =
       .ok (⟨true, some "video/x-raw, format=RGB"⟩, .alreadyLinked)) ∧
    on_pad_added_for_file true
        (on_pad_added_for_file true ⟨false, some "video/x-raw, format=RGB"⟩).1 =
      (⟨true, some "video/x-raw, format=RGB"⟩, .alreadyLinked) :=
  ⟨(pad_added_idempotent ⟨false, some "audio/x-raw, rate=44100"⟩
      "audio/x-raw, rate=44100" rfl).1 (by decide) rfl,
   (pad_added_idempotent ⟨false, some "video/x-raw, format=RGB"⟩
      "video/x-raw, format=RGB" rfl).2.1 (by decide) rfl,
   (pad_added_idempotent ⟨true, some "video/x-raw, format=RGB"⟩
      "video/x-raw, format=RGB" rfl).2.2.1 rfl,
   (pad_added_idempotent ⟨false, some "video/x-raw, format=RGB"⟩
      "video/x-raw, format=RGB" rfl).2.2.2 (by decide) rfl⟩

/-- Claim C7: whenever the frame bridge pushes a transformed frame, the new
frame's presentation timestamp, decode timestamp, duration and byte
offset are exactly those of the pulled source frame. -/
theorem bridge_preserves_timing (transform : List Nat → List Nat) (mapOk : Bool)
    (s : Sample) (st : BridgeState) (store : Store) (pb : PushedBuffer)
    (hpush : (on_new_sample transform mapOk (some s) st store).2.2.2 = some pb) :
    pb.pts = s.meta.pts ∧ pb.dts = s.meta.dts ∧
    pb.duration = s.meta.duration ∧ pb.byteOffset = s.meta.byteOffset := by
  obtain ⟨meta, dataAddr, scaps⟩ := s
  cases scaps with
  | none => simp [on_new_sample] at hpush
  | some caps =>
    simp only [on_new_sample] at hpush
    repeat' split at hpush
    all_goals
      first
      | (injection hpush with h
         subst h
         exact ⟨rfl, rfl, rfl, rfl⟩)
      | simp at hpush

theorem bridge_preserves_timing_witness :
    ((on_new_sample List.reverse true
        (some ⟨⟨10, 20, 30, 40⟩, 0, some "video/x-raw"⟩)
        ⟨true, none, none⟩ ⟨[(0, [1, 2, 3])], 1⟩).2.2.2 =
      some ⟨10, 20, 30, 40, [3, 2, 1]⟩) ∧
    ((⟨10, 20, 30, 40, [3, 2, 1]⟩ : PushedBuffer).pts =
        (⟨⟨10, 20, 30, 40⟩, 0, some "video/x-raw"⟩ : Sample).meta.pts ∧
     (⟨10, 20, 30, 40, [3, 2, 1]⟩ : PushedBuffer).dts =
        (⟨⟨10, 20, 30, 40⟩, 0, some "video/x-raw"⟩ : Sample).meta.dts ∧
     (⟨10, 20, 30, 40, [3, 2, 1]⟩ : PushedBuffer).duration =
        (⟨⟨10, 20, 30, 40⟩, 0, some "video/x-raw"⟩ : Sample).meta.duration ∧
     (⟨10, 20, 30, 40, [3, 2, 1]⟩ : PushedBuffer).byteOffset =
        (⟨⟨10, 20, 30, 40⟩, 0, some "video/x-raw"⟩ : Sample).meta.byteOffset) :=
  ⟨by decide,
   bridge_preserves_timing List.reverse true
     ⟨⟨10, 20, 30, 40⟩, 0, some "video/x-raw"⟩ ⟨true, none, none⟩
     ⟨[(0, [1, 2, 3])], 1⟩ ⟨10, 20, 30, 40, [3, 2, 1]⟩ (by decide)⟩

/-- Claim C10: the bridge maps the source buffer read-only and hands the
external transform a copy, so for every transform — including one that
overwrites the array it is given in place — the source frame's bytes
after the callback are exactly what they were before. -/
theorem bridge_source_unmodified (transform : List Nat → List Nat) (mapOk : Bool)
    (s : Sample) (st : BridgeState) (store : Store)
    (hvalid : s.dataAddr < store.next) :
    alookup (on_new_sample transform mapOk (some s) st store).2.1.bufs s.dataAddr =
      alookup store.bufs s.dataAddr := by
  obtain ⟨meta, dataAddr, scaps⟩ := s
  have hne : dataAddr ≠ store.next := Nat.ne_of_lt hvalid
  cases scaps with
  | none => rfl
  | some caps =>
    simp only [on_new_sample]
    repeat' split
    all_goals
      first
      | rfl
      | rw [alookup_aset_ne _ _ _ _ hne, alookup_aset_ne _ _ _ _ hne]

theorem bridge_source_unmodified_witness :
    (0 : Nat) < 1 ∧
    alookup (on_new_sample (fun _ => [9, 9, 9]) true
        (some ⟨⟨10, 20, 30, 40⟩, 0, some "video/x-raw"⟩)
        ⟨true, none, none⟩ ⟨[(0, [1, 2, 3])], 1⟩).2.1.bufs 0 =
      alookup ([(0, [1, 2, 3])] : List (Nat × List Nat)) 0 :=
  ⟨by decide,
   bridge_source_unmodified (fun _ => [9, 9, 9]) true
     ⟨⟨10, 20, 30, 40⟩, 0, some "video/x-raw"⟩ ⟨true, none, none⟩
     ⟨[(0, [1, 2, 3])], 1⟩ (by decide)⟩

/-- Claim C8: the task1 frame-rate tap callback raises `KeyError` on its very
first real invocation — the guard reads the state key
`'previous_pts'` while the dictionary only defines `'prev_pts'` — so an
exception does escape the callback instead of the pass-through return
the claim requires. -/
theorem fps_probe_callback_raises :
    fps_probe_callback fps_probe_state_init (some 1000) true =
      .error (.keyError "previous_pts") := by
  decide

theorem probe_state_invariant_witness :
    List.Chain' (· < ·)
      (([some 100, none, some 200] : List (Option Nat)).filterMap id) ∧
    (∀ t ∈ ([some 100, none, some 200] : List (Option Nat)).filterMap id,
      t < 2 ^ 64) ∧
    (∃ (stF : ProbeState) (labels : List FpsLabel),
      runProbe "Consumer FPS: " freshProbeState [some 100, none, some 200] =
        .ok (stF, labels) ∧
      0 ≤ stF.current_fps ∧
      ((([some 100, none, some 200] : List (Option Nat)).filterMap id).length ≤ 1 →
        stF.current_fps = 0)) :=
  ⟨show List.Chain' (· < ·) [100, 200] from
     List.Chain.cons (by decide) List.Chain.nil,
   by decide,
   probe_state_invariant "Consumer FPS: " [some 100, none, some 200]
     (show List.Chain' (· < ·) [100, 200] from
       List.Chain.cons (by decide) List.Chain.nil)
     (by decide)⟩
